import Mathlib

/-!
Verification of the journey workflow engine (backend/src/journey) against its
natural-language specification.  The Python data model is embedded shallowly:
YAML/JSON-like runtime values become the inductive `Value`, Python dicts with
string keys become association lists (`PyDict`), and Python code that can raise
an exception is modelled in `Except String`.  Modelling notes, applying
throughout:

* Machine floats never enter the model; Python `float(...)` coercion inside the
  structured condition evaluator is modelled as exact rationals (`pyFloat`),
  which agrees with the source on every comparison that does not depend on
  binary rounding of two distinct decimals to the same double.
* Identifier character classes (`\w`, `\s` in the source regexes), `str.lower`,
  `str.strip` and `uuid.uuid4` are modelled over ASCII: word characters are
  alphanumerics and underscore, whitespace is `Char.isWhitespace`, and fresh
  identifiers are supplied by the caller as an explicit list (`supply`).
* Dictionary keys that the source always uses as variable or node names
  (targets, node identifiers, GOTO targets) are modelled as `String`; a
  workflow that stores a non-string where the engine needs a name falls into a
  designated model error, a corner no claim exercises.
* `ast.literal_eval` inside the legacy call parser is modelled on the literal
  subset actually reachable from workflows (ints, booleans, None, quoted
  strings); no theorem depends on that subset.
-/

namespace Journey

/-- Python runtime values as they occur in workflows and session state:
None, bools, ints, strings, lists and string-keyed dicts.  YAML float
literals are outside the model (no claim mentions them). -/
inductive Value where
  | null : Value
  | bool (b : Bool) : Value
  | int (n : Int) : Value
  | str (s : String) : Value
  | list (xs : List Value) : Value
  | dict (kvs : List (String × Value)) : Value

/-- A Python dict with string keys, in insertion order. -/
abbrev PyDict := List (String × Value)

/-- Lookup in a dict, models `d.get(k)` / `d[k]` for string keys. -/
def dictGet (d : PyDict) (k : String) : Option Value :=
  (d.find? (fun kv => kv.1 = k)).map (fun kv => kv.2)

/-- Membership test, models `k in d`. -/
def dictHas (d : PyDict) (k : String) : Bool :=
  d.any (fun kv => kv.1 = k)

/-- Assignment `d[k] = v`: replace in place if the key exists, else append,
as Python dicts preserve insertion position on overwrite. -/
def dictSet (d : PyDict) (k : String) (v : Value) : PyDict :=
  if dictHas d k then d.map (fun kv => if kv.1 = k then (k, v) else kv)
  else d ++ [(k, v)]

/-- Python truthiness of a `Value` (`if x:`). -/
def pyTruthy : Value → Bool
  | .null => false
  | .bool b => b
  | .int n => decide (n ≠ 0)
  | .str s => decide (s ≠ "")
  | .list xs => !xs.isEmpty
  | .dict kvs => !kvs.isEmpty

/-- Python `x is None`. -/
def isNull : Value → Bool
  | .null => true
  | _ => false

/-- Python `==` against a string constant: only equal strings compare equal. -/
def isStrVal (v : Value) (t : String) : Bool :=
  match v with
  | .str s => s = t
  | _ => false

/-- Python `d.get("type") == t` for an action or block dict. -/
def typeIs (d : PyDict) (t : String) : Bool :=
  match dictGet d "type" with
  | some v => isStrVal v t
  | none => false

/-- The left brace character. -/
def lbrace : Char := Char.ofNat 123

/-- The right brace character. -/
def rbrace : Char := Char.ofNat 125

mutual

/-- Models Python `repr` on the value subset of the model (strings are assumed
to contain no characters that `repr` would escape; no claim interpolates a
string nested inside a list or dict). -/
def pyRepr : Value → String
  | .null => "None"
  | .bool true => "True"
  | .bool false => "False"
  | .int n => toString n
  | .str s => "\x27" ++ s ++ "\x27"
  | .list xs => "[" ++ String.intercalate ", " (pyReprList xs) ++ "]"
  | .dict kvs => "\x7b" ++ String.intercalate ", " (pyReprEntries kvs) ++ "\x7d"

def pyReprList : List Value → List String
  | [] => []
  | v :: vs => pyRepr v :: pyReprList vs

def pyReprEntries : List (String × Value) → List String
  | [] => []
  | (k, v) :: kvs => ("\x27" ++ k ++ "\x27: " ++ pyRepr v) :: pyReprEntries kvs

end

/-- Models Python `str(v)`: identical to `repr` except on strings. -/
def pyStr : Value → String
  | .str s => s
  | v => pyRepr v

/-- One character of the regex class `\w` (ASCII part). -/
def isWordChar (c : Char) : Bool := c.isAlphanum || c = '_'

/-- One character of the regex class `[\w\s]` (ASCII part). -/
def isWordSpace (c : Char) : Bool := isWordChar c || c.isWhitespace

/-- Scanner for `re.findall` with pattern `\x7b([\w\s]+)\x7d` (utils.py line 46):
a DFA over the character list; the optional state is the run of word/space
characters accumulated since the last unmatched opening brace, reversed. -/
def findVarRefsAux : List Char → Option (List Char) → List String
  | [], _ => []
  | c :: rest, none =>
      if c = lbrace then findVarRefsAux rest (some [])
      else findVarRefsAux rest none
  | c :: rest, some buf =>
      if c = rbrace then
        if buf.isEmpty then findVarRefsAux rest none
        else String.mk buf.reverse :: findVarRefsAux rest none
      else if c = lbrace then findVarRefsAux rest (some [])
      else if isWordSpace c then findVarRefsAux rest (some (c :: buf))
      else findVarRefsAux rest none

/-- All placeholder names occurring in `text`, in order of occurrence. -/
def findVarRefs (text : String) : List String :=
  findVarRefsAux text.toList none

/-- Worker for `replaceAll`; the `Nat` is recursion bookkeeping only (each
step consumes at least one character, so any budget of at least the input
length gives the exact replacement semantics). -/
def replaceAllAux (pat rep : List Char) : Nat → List Char → List Char
  | 0, l => l
  | _ + 1, [] => []
  | fuel + 1, c :: rest =>
      if pat ≠ [] ∧ pat.isPrefixOf (c :: rest) then
        rep ++ replaceAllAux pat rep fuel (rest.drop (pat.length - 1))
      else
        c :: replaceAllAux pat rep fuel rest

/-- Models Python `str.replace`: replace every non-overlapping occurrence of
`pat` left to right.  The empty pattern never arises (patterns are braced
names); it is mapped to the identity. -/
def replaceAll (pat rep s : List Char) : List Char :=
  replaceAllAux pat rep s.length s

/-- The braced placeholder text for a variable name. -/
def braced (name : String) : String := "\x7b" ++ name ++ "\x7d"

/-- Models `interpolate_variables` (utils.py lines 39 to 54): find every
placeholder of the original text, and for each one that is bound to a
non-`None` value, replace all its occurrences by the textual form of the
value.  Non-string inputs pass through at the call sites via
`interpValue`. -/
def interpolate_variables (text : String) (vars : PyDict) : String :=
  (findVarRefs text).foldl
    (fun t name =>
      match dictGet vars name with
      | some v =>
          if isNull v then t
          else String.mk (replaceAll (braced name).toList (pyStr v).toList t.toList)
      | none => t)
    text

/-- Models `interpolate_variables` applied to an arbitrary value: the source
returns non-string input unchanged (utils.py lines 41 to 42). -/
def interpValue (v : Value) (vars : PyDict) : Value :=
  match v with
  | .str s => .str (interpolate_variables s vars)
  | v => v

/-- Models Python `str.strip` (ASCII whitespace). -/
def pyStrip (s : String) : String :=
  String.mk (((s.toList.dropWhile Char.isWhitespace).reverse.dropWhile
    Char.isWhitespace).reverse)

/-- Models `re.match` with pattern anchored as whole-string
`\x7b([\w\s]+)\x7d` (orchestrator.py line 140): the input is exactly one
braced run of word/space characters; returns the run. -/
def singleVarMatch (s : String) : Option String :=
  match s.toList with
  | c :: rest =>
      if c = lbrace then
        let run := rest.takeWhile isWordSpace
        let after := rest.dropWhile isWordSpace
        if run ≠ [] ∧ after = [rbrace] then some (String.mk run) else none
      else none
  | [] => none

/-- Models `Orchestrator._interpolate_with_types` (orchestrator.py lines 129
to 148): non-strings unchanged; a string that after stripping is exactly one
bound placeholder yields the original typed value (even `None`); otherwise
ordinary interpolation. -/
def interpolate_with_types (value : Value) (vars : PyDict) : Value :=
  match value with
  | .str s =>
      match singleVarMatch (pyStrip s) with
      | some name =>
          match dictGet vars name with
          | some v => v
          | none => .str (interpolate_variables s vars)
      | none => .str (interpolate_variables s vars)
  | v => v

mutual

/-- Models `Orchestrator._interpolate_args_deep` (orchestrator.py lines 150
to 156): recurse through dicts and lists, type-preserving interpolation at
the leaves. -/
def interpolate_args_deep (value : Value) (vars : PyDict) : Value :=
  match value with
  | .dict kvs => .dict (interpArgsEntries kvs vars)
  | .list xs => .list (interpArgsList xs vars)
  | .null => interpolate_with_types .null vars
  | .bool b => interpolate_with_types (.bool b) vars
  | .int n => interpolate_with_types (.int n) vars
  | .str s => interpolate_with_types (.str s) vars

def interpArgsList : List Value → PyDict → List Value
  | [], _ => []
  | v :: vs, vars => interpolate_args_deep v vars :: interpArgsList vs vars

def interpArgsEntries : List (String × Value) → PyDict → List (String × Value)
  | [], _ => []
  | (k, v) :: kvs, vars => (k, interpolate_args_deep v vars) :: interpArgsEntries kvs vars

end

/-- The numeric value of a run of decimal digit characters. -/
def digitsToNat (ds : List Char) : Nat :=
  ds.foldl (fun a c => a * 10 + (c.toNat - 48)) 0

/-- Exponent part of a float literal: optional sign then digits. -/
def parseExpPart (l : List Char) : Option Int :=
  let sgnRest : Int × List Char :=
    match l with
    | '+' :: t => (1, t)
    | '-' :: t => (-1, t)
    | t => (1, t)
  let ds := sgnRest.2.takeWhile Char.isDigit
  let rest := sgnRest.2.dropWhile Char.isDigit
  if ds ≠ [] ∧ rest = [] then some (sgnRest.1 * (digitsToNat ds : Int)) else none

/-- Models Python `float(s)` on decimal notation (optional sign, digits with
an optional fraction and exponent, surrounding whitespace); `inf`, `nan` and
digit-group underscores are outside the model (no claim uses them).  The
result is the exact rational denoted by the literal. -/
def parsePyFloat (s : String) : Option ℚ :=
  let l0 := ((s.toList.dropWhile Char.isWhitespace).reverse.dropWhile
    Char.isWhitespace).reverse
  let sgnRest : ℚ × List Char :=
    match l0 with
    | '+' :: t => (1, t)
    | '-' :: t => (-1, t)
    | t => (1, t)
  let ip := sgnRest.2.takeWhile Char.isDigit
  let r1 := sgnRest.2.dropWhile Char.isDigit
  let mant : Option (ℚ × List Char) :=
    match r1 with
    | '.' :: r2 =>
        let fp := r2.takeWhile Char.isDigit
        let r3 := r2.dropWhile Char.isDigit
        if ip = [] ∧ fp = [] then none
        else some ((digitsToNat ip : ℚ) + (digitsToNat fp : ℚ) / (10 : ℚ) ^ fp.length, r3)
    | _ => if ip = [] then none else some ((digitsToNat ip : ℚ), r1)
  match mant with
  | none => none
  | some (m, rest) =>
      match rest with
      | [] => some (sgnRest.1 * m)
      | c :: r4 =>
          if c = 'e' ∨ c = 'E' then
            match parseExpPart r4 with
            | some e => some (sgnRest.1 * m * (10 : ℚ) ^ e)
            | none => none
          else none

/-- Models Python `float(v)`: ints and bools coerce, strings parse as decimal
literals, and `None`, lists and dicts raise `TypeError` (here: `none`). -/
def pyFloat : Value → Option ℚ
  | .int n => some (n : ℚ)
  | .bool b => some (if b then 1 else 0)
  | .str s => parsePyFloat s
  | _ => none

/-- The operator names with numeric (float-coercing) semantics. -/
def numericOps : List String :=
  ["greater_than", "less_than", "greater_than_or_equal", "less_than_or_equal"]

/-- Numeric comparison after `float` coercion of both sides; a failed
coercion yields `false` (the inner `try` of the source). -/
def numCompare (op : String) (a b : Value) : Bool :=
  match pyFloat a, pyFloat b with
  | some x, some y =>
      if op = "greater_than" then decide (x > y)
      else if op = "less_than" then decide (x < y)
      else if op = "greater_than_or_equal" then decide (x ≥ y)
      else decide (x ≤ y)
  | _, _ => false

/-- Models Python `str.lower` over ASCII letters. -/
def pyLower (s : String) : String := String.mk (s.toList.map Char.toLower)

/-- Models Python `str.startswith`. -/
def pyStartsWith (a b : String) : Bool := b.toList.isPrefixOf a.toList

/-- Models Python `str.endswith`. -/
def pyEndsWith (a b : String) : Bool := b.toList.isSuffixOf a.toList

/-- Python substring test `needle in hay`. -/
def isSubstringOf (needle hay : List Char) : Bool :=
  hay.tails.any (fun t => needle.isPrefixOf t)

/-- Python `x is True`. -/
def isTrueVal : Value → Bool
  | .bool true => true
  | _ => false

/-- Python `x is False`. -/
def isFalseVal : Value → Bool
  | .bool false => true
  | _ => false

/-- The operator dispatch of `_evaluate_structured_condition` (orchestrator.py
lines 174 to 211): string comparisons are case-insensitive via `str(...)
.lower()`, numeric operators coerce both sides, an unknown operator (or a
non-string one, which compares unequal to every name) yields `false`. -/
def evalCondOp (operator variable_value value : Value) : Bool :=
  match operator with
  | .str op =>
      if op = "equals" ∨ op = "==" then
        decide (pyLower (pyStr variable_value) = pyLower (pyStr value))
      else if op = "not_equals" ∨ op = "!=" then
        decide (pyLower (pyStr variable_value) ≠ pyLower (pyStr value))
      else if op = "is_true" then
        isTrueVal variable_value || decide (pyLower (pyStr variable_value) = "true")
      else if op = "is_false" then
        isFalseVal variable_value || decide (pyLower (pyStr variable_value) = "false")
      else if op = "contains" then
        isSubstringOf (pyLower (pyStr value)).toList (pyLower (pyStr variable_value)).toList
      else if op = "starts_with" then
        pyStartsWith (pyLower (pyStr variable_value)) (pyLower (pyStr value))
      else if op = "ends_with" then
        pyEndsWith (pyLower (pyStr variable_value)) (pyLower (pyStr value))
      else if op ∈ numericOps then
        numCompare op variable_value value
      else false
  | _ => false

/-- The `variable_value` binding of the evaluator (orchestrator.py line 170):
the session value of the named variable, defaulting to the empty string for
an absent binding or a non-string name. -/
def condVariableValue (rule vars : PyDict) : Value :=
  match (dictGet rule "variable").getD (.str "") with
  | .str name => (dictGet vars name).getD (.str "")
  | _ => .str ""

/-- True when the rule's `variable` field is usable as a dict key (absent, a
string, or another hashable scalar); a list or dict there is the one input
on which the Python evaluator raises. -/
def variableFieldHashable (rule : PyDict) : Bool :=
  match (dictGet rule "variable").getD (.str "") with
  | .list _ => false
  | .dict _ => false
  | _ => true

/-- Models `Orchestrator._evaluate_structured_condition` (orchestrator.py
lines 158 to 217).  The field defaults are `""`, `"equals"`, `""`.  The one
way the Python function can raise is `variables.get(variable)` with an
unhashable (list or dict valued) `variable` field, which happens before the
protective `try`; every other failure is converted to `false`. -/
def evaluate_structured_condition (rule vars : PyDict) : Except String Bool :=
  let variableField := (dictGet rule "variable").getD (.str "")
  let operator := (dictGet rule "operator").getD (.str "equals")
  let value := (dictGet rule "value").getD (.str "")
  match variableField with
  | .list _ => .error "TypeError: unhashable variable field"
  | .dict _ => .error "TypeError: unhashable variable field"
  | _ => .ok (evalCondOp operator (condVariableValue rule vars) value)

/-- A registered tool: called either with positional arguments (legacy call
strings, `ANALYZE_RESPONSE`) or keyword arguments (`SET_VARIABLE` action
format); `Except.error` models the tool raising. -/
abbrev ToolFn := List Value → PyDict → Except String Value

/-- The tool registry: a name-to-callable table (`ToolRegistry.tools`). -/
abbrev ToolRegistry := List (String × ToolFn)

/-- Lookup of a registered tool by name. -/
def regLookup (reg : ToolRegistry) (name : String) : Option ToolFn :=
  (reg.find? (fun t => t.1 = name)).map (fun t => t.2)

/-- Models `ToolRegistry.has_tool`. -/
def has_tool (reg : ToolRegistry) (name : String) : Bool :=
  (regLookup reg name).isSome

/-- Models one literal of `ast.literal_eval` on the subset reachable from
workflow call strings: `None`, booleans, integers and quoted strings with no
embedded quote. -/
def parseSimpleLiteral (s : String) : Option Value :=
  let t := pyStrip s
  if t = "None" then some .null
  else if t = "True" then some (.bool true)
  else if t = "False" then some (.bool false)
  else
    match t.toList with
    | c :: rest =>
        if c = '\x27' ∨ c = '"' then
          match rest.getLast? with
          | some last =>
              if last = c ∧ (rest.dropLast.all (fun ch => ch ≠ c)) then
                some (.str (String.mk rest.dropLast))
              else none
          | none => none
        else
          let sgnRest : Int × List Char :=
            match c :: rest with
            | '-' :: u => (-1, u)
            | '+' :: u => (1, u)
            | u => (1, u)
          if sgnRest.2 ≠ [] ∧ sgnRest.2.all Char.isDigit then
            some (.int (sgnRest.1 * (digitsToNat sgnRest.2 : Int)))
          else none
    | [] => none

/-- Argument parsing of `parse_function_call` (utils.py lines 27 to 36):
`ast.literal_eval` over a bracketed argument list, with the whole string as
one string argument when literal parsing fails.  The comma split is
top-level only; no theorem depends on this subset. -/
def parseLiteralArgs (s : String) : List Value :=
  match (s.splitOn ",").mapM parseSimpleLiteral with
  | some vs => vs
  | none => [.str s]

/-- Models `parse_function_call` (utils.py lines 11 to 36): the regex
`(\w+)\((.*)\)$` under `re.match` on the stripped string demands a leading
maximal word-character run, an opening parenthesis, a newline-free middle and
a closing parenthesis as the final character. -/
def parse_function_call (s : String) : Option String × List Value :=
  let l := (pyStrip s).toList
  let nm := l.takeWhile isWordChar
  let rest := l.dropWhile isWordChar
  if nm = [] then (none, [])
  else
    match rest with
    | c :: mid =>
        if c = '(' then
          match mid.getLast? with
          | some last =>
              if last = ')' ∧ (mid.dropLast.all (fun ch => ch ≠ '\n')) then
                let args_str := pyStrip (String.mk mid.dropLast)
                if args_str = "" then (some (String.mk nm), [])
                else (some (String.mk nm), parseLiteralArgs args_str)
              else (none, [])
          | none => (none, [])
        else (none, [])
    | [] => (none, [])

/-- Models `execute_tool_call` (tool_registry.py lines 135 to 160): string
interpolation, call-string parsing (which raises on a non-string input), and
direct invocation; an unparsable string or unregistered tool returns `None`.
The tool itself may raise, and that propagates. -/
def execute_tool_call (call_string : Value) (vars : PyDict) (reg : ToolRegistry) :
    Except String Value :=
  match interpValue call_string vars with
  | .str s =>
      match parse_function_call s with
      | (none, _) => .ok .null
      | (some nm, args) =>
          match regLookup reg nm with
          | some f => f args []
          | none => .ok .null
  | _ => .error "AttributeError: strip of a non-string call"

/-- The caller-owned session state.  `current_block_index` models
`session_state.get(\x27current_block_index\x27, 0)`; a hand-built session
holding a position but no index key (where the increment would raise
`KeyError`) is outside the model, as is a negative index. -/
structure SessionState where
  current_node_id : Option String := none
  current_block_index : Nat := 0
  vars : PyDict := []
  pending_action : Option PyDict := none

/-- Models `Orchestrator.set_variable` (orchestrator.py lines 44 to 50). -/
def set_variable (s : SessionState) (var_name : String) (v : Value) : SessionState :=
  { s with vars := dictSet s.vars var_name v }

/-- Models `Orchestrator.set_variable_from_source` (orchestrator.py lines 52
to 70): with a registry, try the source as a tool call and keep a
non-`None` result; otherwise assign the source directly. -/
def set_variable_from_source (reg? : Option ToolRegistry) (s : SessionState)
    (var_name : String) (source : Value) : Except String SessionState :=
  match reg? with
  | some reg => do
      let result ← execute_tool_call source s.vars reg
      if isNull result then .ok (set_variable s var_name source)
      else .ok (set_variable s var_name result)
  | none => .ok (set_variable s var_name source)

/-- Models `Orchestrator.update_variable` (orchestrator.py lines 72 to 85):
for `append`, a missing target is first bound to `[]` and then appended to;
an existing non-list value has no `append` attribute and the call raises;
any other operation changes nothing. -/
def update_variable (s : SessionState) (target_var : String)
    (source_var operation : Value) : Except String SessionState :=
  if isStrVal operation "append" then
    match dictGet s.vars target_var with
    | none => .ok (set_variable s target_var (.list [source_var]))
    | some (.list xs) => .ok (set_variable s target_var (.list (xs ++ [source_var])))
    | some _ => .error "AttributeError: append on a value that is not a list"
  else .ok s

/-- Models `Orchestrator.analyze_and_set_variable` (orchestrator.py lines 87
to 97): a truthy criteria name that resolves in the registry is invoked on
the input with no protective `try`, so a raising tool propagates; in every
other case the output variable becomes `False`. -/
def analyze_and_set_variable (reg? : Option ToolRegistry) (s : SessionState)
    (input_val : Value) (output_var : String) (criteria : Option Value) :
    Except String SessionState := do
  let result : Value ←
    match criteria with
    | none => pure (.bool false)
    | some c =>
        if pyTruthy c then
          match reg? with
          | none => pure (.bool false)
          | some reg =>
              match c with
              | .str cname =>
                  match regLookup reg cname with
                  | some f => f [input_val] []
                  | none => pure (.bool false)
              | .list _ => .error "TypeError: unhashable criteria"
              | .dict _ => .error "TypeError: unhashable criteria"
              | _ => pure (.bool false)
        else pure (.bool false)
  .ok (set_variable s output_var result)

/-- Models a required dict field access `d[k]` (`KeyError` when absent). -/
def getRequired (d : PyDict) (k : String) : Except String Value :=
  match dictGet d k with
  | some v => .ok v
  | none => .error ("KeyError: " ++ k)

/-- A place where the source requires a dict (attribute access on it). -/
def asDictE : Value → Except String PyDict
  | .dict d => .ok d
  | _ => .error "TypeError: a dict was required"

/-- A place where the source requires a list. -/
def asListE : Value → Except String (List Value)
  | .list xs => .ok xs
  | _ => .error "TypeError: a list was required"

/-- A place where the model requires a string name (see the module note on
string keys). -/
def asStrE : Value → Except String String
  | .str s => .ok s
  | _ => .error "model restriction: a string name was required"

/-- Models `Orchestrator._process_actions_internally` (orchestrator.py lines
350 to 419).  `supply` feeds the identifiers that `uuid.uuid4()` would
generate, one per `AWAIT_USER_INPUT`.  `END_WORKFLOW` and unknown action
kinds are both passed through to the client, as in the source. -/
def process_actions_internally (reg? : Option ToolRegistry) :
    List PyDict → SessionState → List String → Except String (List PyDict × SessionState)
  | [], s, _ => .ok ([], s)
  | action :: rest, s, supply =>
      if typeIs action "SET_VARIABLE" then do
        let targetV ← getRequired action "target"
        let target ← asStrE targetV
        let s' ←
          if dictHas action "source" then
            set_variable_from_source reg? s target ((dictGet action "source").getD .null)
          else if dictHas action "action" then
            let action_name := (dictGet action "action").getD .null
            let action_args := (dictGet action "actionArgs").getD (.dict [])
            let interpolated := interpolate_args_deep action_args s.vars
            match reg? with
            | some reg =>
                match action_name with
                | .str nm =>
                    match regLookup reg nm with
                    | some f =>
                        match interpolated with
                        | .dict kwargs =>
                            match f [] kwargs with
                            | .ok r => .ok (set_variable s target r)
                            | .error _ => .ok (set_variable s target .null)
                        | _ => .ok (set_variable s target .null)
                    | none => .ok s
                | .list _ => .error "TypeError: unhashable action name"
                | .dict _ => .error "TypeError: unhashable action name"
                | _ => .ok s
            | none => .ok s
          else .ok s
        process_actions_internally reg? rest s' supply
      else if typeIs action "UPDATE_VARIABLE" then do
        let targetV ← getRequired action "target"
        let target ← asStrE targetV
        let sourceV ← getRequired action "source"
        let operationV ← getRequired action "operation"
        let s' ← update_variable s target sourceV operationV
        process_actions_internally reg? rest s' supply
      else if typeIs action "ANALYZE_RESPONSE" then do
        let inputV ← getRequired action "input"
        let outV ← getRequired action "output_bool"
        let output ← asStrE outV
        let s' ← analyze_and_set_variable reg? s inputV output (dictGet action "criteria")
        process_actions_internally reg? rest s' supply
      else if typeIs action "AWAIT_USER_INPUT" then do
        let fid := supply.headD "generated-id"
        let action2 := dictSet action "id" (.str fid)
        let s1 := { s with pending_action := some action2 }
        let (cs, s') ← process_actions_internally reg? rest s1 supply.tail
        .ok (action2 :: cs, s')
      else do
        let (cs, s') ← process_actions_internally reg? rest s supply
        .ok (action :: cs, s')

/-- The orchestrator: the parsed workflow node list (each node a dict with
`id` and `blocks`) and the optional tool registry. -/
structure Orchestrator where
  nodes : List Value
  tool_registry : Option ToolRegistry := none

/-- The identifier of a node record, when it is a dict with a string id. -/
def nodeId (n : Value) : Option String :=
  match n with
  | .dict d =>
      match dictGet d "id" with
      | some (.str s) => some s
      | _ => none
  | _ => none

/-- Models `self.nodes.get(cid)`: the dict comprehension keeps the last node
with a duplicated identifier. -/
def findNode (nodes : List Value) (cid : String) : Option Value :=
  (nodes.filter (fun n => nodeId n = some cid)).getLast?

/-- Models `self.node_order.index(cid)`: the first position. -/
def findNodeIdx (nodes : List Value) (cid : String) : Option Nat :=
  nodes.findIdx? (fun n => nodeId n = some cid)

/-- Node id as needed for storage into the session (model restriction: a
string; `__init__` would have raised on a node with no id at all). -/
def nodeIdE (n : Value) : Except String String :=
  match nodeId n with
  | some s => .ok s
  | none => .error "model restriction: node id must be a string"

/-- The literal action the engine returns at the end of the workflow. -/
def endWorkflowAction : PyDict := [("type", .str "END_WORKFLOW")]

/-- The per-action interpolation loop of `get_next_step` (orchestrator.py
lines 298 to 309): every field value is string-interpolated except the
`action` and `actionArgs` fields of a `SET_VARIABLE` action. -/
def interpolateAction (a : PyDict) (vars : PyDict) : PyDict :=
  a.map (fun kv =>
    if typeIs a "SET_VARIABLE" && (kv.1 == "action" || kv.1 == "actionArgs") then kv
    else (kv.1, interpValue kv.2 vars))

/-- The `for ... break / else` loop over CONDITION rules (orchestrator.py
lines 267 to 273): the `then` list of the first rule whose condition holds. -/
def firstTrueThen : List Value → PyDict → Except String (Option (List Value))
  | [], _ => .ok none
  | r :: rest, vars => do
      let rd ← asDictE r
      let b ← evaluate_structured_condition rd vars
      if b then do
        let ts ← asListE ((dictGet rd "then").getD (.list []))
        .ok (some ts)
      else firstTrueThen rest vars

/-- The action list a CONDITION block resolves to (orchestrator.py lines 265
to 280): first matching rule fires its `then`; with no match, the `else` of
the last rule when present, and `[]` otherwise.  An empty rule list raises
(`rules[-1]`). -/
def conditionActions (rules : List Value) (vars : PyDict) :
    Except String (List Value) := do
  match ← firstTrueThen rules vars with
  | some acts => .ok acts
  | none =>
      match rules.getLast? with
      | none => .error "IndexError: rules is empty"
      | some fr => do
          let frD ← asDictE fr
          match dictGet frD "else" with
          | some e => asListE e
          | none => .ok []

/-- Steps 5 to 8 of the transition (orchestrator.py lines 293 to 329): split
off the first GOTO action, interpolate the rest, update the position
(navigation wins, otherwise advance the block index), then process actions
internally. -/
def finishStep (reg? : Option ToolRegistry) (supply : List String)
    (actions_to_perform : List Value) (s : SessionState) :
    Except String (List PyDict × SessionState) := do
  let dicts ← actions_to_perform.mapM asDictE
  let goto_action := dicts.find? (fun a => typeIs a "GOTO_NODE")
  let non_goto := dicts.filter (fun a => !typeIs a "GOTO_NODE")
  let final_actions := non_goto.map (fun a => interpolateAction a s.vars)
  let s1 ←
    match goto_action with
    | some g => do
        let tgt ← getRequired g "target"
        let tgtS ← asStrE tgt
        pure { s with current_node_id := some tgtS, current_block_index := 0 }
    | none => pure { s with current_block_index := s.current_block_index + 1 }
  process_actions_internally reg? final_actions s1 supply

/-- Models `Orchestrator.get_next_step` (orchestrator.py lines 219 to 329).
The recursion of the source is unbounded; the `Nat` fuel is a model artifact
and every theorem supplies enough of it.  An unstarted session is one whose
stored node identifier is absent or empty (Python truthiness). -/
def get_next_step (o : Orchestrator) (supply : List String) :
    Nat → SessionState → Except String (List PyDict × SessionState)
  | 0, _ => .error "model: step budget exhausted"
  | fuel + 1, s =>
      let unstarted :=
        match s.current_node_id with
        | none => true
        | some c => c = ""
      if unstarted then
        match o.nodes with
        | [] => .error "IndexError: workflow has no nodes"
        | n0 :: _ => do
            let id0 ← nodeIdE n0
            get_next_step o supply fuel
              { s with current_node_id := some id0, current_block_index := 0 }
      else
        let cid := s.current_node_id.getD ""
        match findNode o.nodes cid with
        | none => .ok ([endWorkflowAction], s)
        | some node =>
            if !pyTruthy node then .ok ([endWorkflowAction], s)
            else do
              let blocksV ←
                match node with
                | .dict nd => getRequired nd "blocks"
                | _ => .error "TypeError: node must be a dict"
              let blocks ← asListE blocksV
              if hlen : s.current_block_index ≥ blocks.length then
                match findNodeIdx o.nodes cid with
                | none => .ok ([endWorkflowAction], s)
                | some i =>
                    if hnext : i + 1 < o.nodes.length then do
                      let nid ← nodeIdE (o.nodes.get ⟨i + 1, hnext⟩)
                      get_next_step o supply fuel
                        { s with current_node_id := some nid, current_block_index := 0 }
                    else .ok ([endWorkflowAction], s)
              else
                let block := blocks.get ⟨s.current_block_index, by omega⟩
                do
                  let blockD ← asDictE block
                  let btypeV ← getRequired blockD "type"
                  if isStrVal btypeV "CONDITION" then do
                    let rules ← asListE (← getRequired blockD "rules")
                    let acts ← conditionActions rules s.vars
                    match acts with
                    | [] =>
                        get_next_step o supply fuel
                          { s with current_block_index := s.current_block_index + 1 }
                    | _ => finishStep o.tool_registry supply acts s
                  else finishStep o.tool_registry supply [block] s

/-- Models `Orchestrator.process_user_response` (orchestrator.py lines 331 to
348): only a pending action whose id matches has any effect; then a truthy
target receives the response, the pending action is cleared and the index
advances.  A non-string truthy target (never produced by a workflow) is
outside the model. -/
def process_user_response (s : SessionState) (action_id : String)
    (response : Value) : SessionState :=
  match s.pending_action with
  | some pending =>
      let idMatches : Bool :=
        match dictGet pending "id" with
        | some (.str i) => i = action_id
        | _ => false
      if idMatches then
        let s1 :=
          match dictGet pending "target" with
          | some (.str t) => if t ≠ "" then set_variable s t response else s
          | _ => s
        { s1 with pending_action := none,
                  current_block_index := s1.current_block_index + 1 }
      else s
  | none => s

/-! ## Concrete fixtures used by several claim theorems -/

/-- A one-block workflow whose single node awaits user input into `Name`. -/
def awaitWorkflow : Orchestrator :=
  { nodes :=
      [ .dict [("id", .str "n1"),
               ("blocks", .list
                 [ .dict [("type", .str "AWAIT_USER_INPUT"), ("target", .str "Name")] ])] ],
    tool_registry := some [] }

/-- The action the fixture emits once the identifier `uid-1` is attached. -/
def awaitEmitted : PyDict :=
  [("type", .str "AWAIT_USER_INPUT"), ("target", .str "Name"), ("id", .str "uid-1")]

/-- An UPDATE_VARIABLE append action on the `Notes` variable. -/
def updAppendAction : PyDict :=
  [("type", .str "UPDATE_VARIABLE"), ("target", .str "Notes"),
   ("source", .str "a"), ("operation", .str "append")]

/-- The operator names `_evaluate_structured_condition` dispatches on. -/
def knownCondOps : List String :=
  ["equals", "==", "not_equals", "!=", "is_true", "is_false",
   "contains", "starts_with", "ends_with"] ++ numericOps

/-- A one-block workflow that sets `T` from a direct source string. -/
def setSourceWorkflow (src : String) (reg : ToolRegistry) : Orchestrator :=
  { nodes :=
      [ .dict [("id", .str "n1"),
               ("blocks", .list
                 [ .dict [("type", .str "SET_VARIABLE"), ("target", .str "T"),
                          ("source", .str src)] ])] ],
    tool_registry := some reg }

/-- A registry whose single tool `boom` raises with the given message. -/
def raisingReg (msg : String) : ToolRegistry :=
  [("boom", fun _ _ => .error msg)]

/-- A one-block workflow that sets `T` by invoking the tool `boom` in the
action/actionArgs format. -/
def toolSetWorkflow (msg : String) : Orchestrator :=
  { nodes :=
      [ .dict [("id", .str "n1"),
               ("blocks", .list
                 [ .dict [("type", .str "SET_VARIABLE"), ("target", .str "T"),
                          ("action", .str "boom"), ("actionArgs", .dict [])] ])] ],
    tool_registry := some (raisingReg msg) }

/-- A one-block workflow that analyzes an input with the criteria tool
`boom`. -/
def analyzeWorkflow (msg : String) : Orchestrator :=
  { nodes :=
      [ .dict [("id", .str "n1"),
               ("blocks", .list
                 [ .dict [("type", .str "ANALYZE_RESPONSE"), ("input", .str "hi"),
                          ("output_bool", .str "B"), ("criteria", .str "boom")] ])] ],
    tool_registry := some (raisingReg msg) }

/-- The PRESENT_CONTENT action labelled `B`. -/
def presB : Value := .dict [("type", .str "PRESENT_CONTENT"), ("payload", .str "B")]

/-- The PRESENT_CONTENT action labelled `C`. -/
def presC : Value := .dict [("type", .str "PRESENT_CONTENT"), ("payload", .str "C")]

/-- The first rule of the CONDITION tie-break example of the spec. -/
def condRule1 : PyDict :=
  [("variable", .str "x"), ("operator", .str "equals"), ("value", .str "1"),
   ("then", .list [.dict [("type", .str "PRESENT_CONTENT"), ("payload", .str "A")]])]

/-- The second rule of the CONDITION tie-break example of the spec, carrying
both a `then` and an `else` list. -/
def condRule2 : PyDict :=
  [("variable", .str "x"), ("operator", .str "equals"), ("value", .str "2"),
   ("then", .list [presB]), ("else", .list [presC])]

/-- A workflow whose first block is a CONDITION that resolves to an empty
action list (a true rule with an empty `then`), followed by a
PRESENT_CONTENT block. -/
def skipWorkflow : Orchestrator :=
  { nodes :=
      [ .dict [("id", .str "n1"),
               ("blocks", .list
                 [ .dict [("type", .str "CONDITION"),
                          ("rules", .list
                            [ .dict [("variable", .str "x"), ("operator", .str "equals"),
                                     ("value", .str "9"), ("then", .list [])] ])]
                 , .dict [("type", .str "PRESENT_CONTENT"), ("payload", .str "After")] ])] ],
    tool_registry := some [] }

/-! ## Helper lemmas -/

/-- Unfolding a bind of `Except String` whose first stage succeeded. -/
theorem okBind {α β : Type} (a : α) (g : α → Except String β) :
    Except.ok a >>= g = g a := rfl

/-- Unfolding a bind of `Except String` whose first stage failed. -/
theorem errBind {α β : Type} (e : String) (g : α → Except String β) :
    (Except.error e : Except String α) >>= g = Except.error e := rfl

/-- `pure` of the `Except String` monad in constructor form. -/
theorem pureExc {α : Type} (a : α) : (pure a : Except String α) = Except.ok a := rfl

/-- A text with no placeholder is left unchanged by interpolation. -/
theorem interp_no_refs (t : String) (vars : PyDict) (h : findVarRefs t = []) :
    interpolate_variables t vars = t := by
  simp [interpolate_variables, h]

/-- Rules that evaluate to false are skipped by the first-match loop. -/
theorem firstTrueThen_skip :
    ∀ (pre rest : List Value) (vars : PyDict),
      (∀ x ∈ pre, ∃ d, x = Value.dict d ∧
        evaluate_structured_condition d vars = .ok false) →
      firstTrueThen (pre ++ rest) vars = firstTrueThen rest vars
  | [], rest, vars, _ => by simp
  | x :: pre, rest, vars, hpre => by
      obtain ⟨d, rfl, hd⟩ := hpre x (List.mem_cons_self x pre)
      simp only [List.cons_append, firstTrueThen, asDictE, okBind, hd]
      simpa using firstTrueThen_skip pre rest vars
        (fun y hy => hpre y (List.mem_cons_of_mem _ hy))

/-- One unfolding of `get_next_step` for a session positioned at a block
that is not a CONDITION: the step reduces to `finishStep` on that block. -/
theorem get_next_step_regular_block (o : Orchestrator) (supply : List String)
    (fuel : Nat) (s : SessionState) (cid : String) (nd : PyDict)
    (blocks : List Value) (blockD : PyDict) (ty : String)
    (h1 : s.current_node_id = some cid) (h2 : cid ≠ "")
    (h3 : findNode o.nodes cid = some (.dict nd)) (h4 : nd ≠ [])
    (h5 : dictGet nd "blocks" = some (.list blocks))
    (hidx : s.current_block_index < blocks.length)
    (h6 : blocks.get ⟨s.current_block_index, hidx⟩ = .dict blockD)
    (h7 : dictGet blockD "type" = some (.str ty)) (h8 : ty ≠ "CONDITION") :
    get_next_step o supply (fuel + 1) s =
      finishStep o.tool_registry supply [.dict blockD] s := by
  have hne : nd.isEmpty = false := by simpa using h4
  have hge : ¬ s.current_block_index ≥ blocks.length := by omega
  simp only [List.get_eq_getElem] at h6
  simp [get_next_step, h1, h2, h3, hne, hge, h5, h6, h7, h8,
    getRequired, asListE, asDictE, pyTruthy, isStrVal, okBind]

/-- `finishStep` on one action that is not a GOTO: interpolate it, advance
the block index and process it internally. -/
theorem finishStep_single_action (reg? : Option ToolRegistry) (supply : List String)
    (a : PyDict) (s : SessionState) (hng : typeIs a "GOTO_NODE" = false) :
    finishStep reg? supply [.dict a] s =
      process_actions_internally reg? [interpolateAction a s.vars]
        { s with current_block_index := s.current_block_index + 1 } supply := by
  simp [finishStep, asDictE, okBind, pureExc, hng,
    List.mapM, List.mapM.loop, List.find?, List.filter]

/-! ## Claim theorems -/

/-- C1: the code, evaluated at the failing input.  On the session positioned
at the AWAIT_USER_INPUT block (index 0), `get_next_step` does emit the action
with the fresh identifier and does record the pending action carrying that id
and the target variable — but the stored `current_block_index` comes back 1,
not the claimed unchanged 0: the engine increments the index for
AWAIT_USER_INPUT like any other non-GOTO block (orchestrator.py line 321),
even though `process_user_response` increments it again on resume. -/
theorem C1_await_advances_block_index :
    get_next_step awaitWorkflow ["uid-1"] 3 (SessionState.mk (some "n1") 0 [] none) =
      .ok ([awaitEmitted], SessionState.mk (some "n1") 1 [] (some awaitEmitted)) := rfl

/-- C2: the code, evaluated at the failing input.  With the target variable
`Notes` holding the non-list string value `x`, an append raises
(`AttributeError`, modelled as `Except.error`) both in `update_variable`
itself and through the internal action processing, instead of coercing the
existing value to a one-element list. -/
theorem C2_append_to_non_list_raises :
    update_variable (SessionState.mk none 0 [("Notes", .str "x")] none)
        "Notes" (.str "a") (.str "append")
      = .error "AttributeError: append on a value that is not a list"
  ∧ process_actions_internally (some []) [updAppendAction]
        (SessionState.mk none 0 [("Notes", .str "x")] none) []
      = .error "AttributeError: append on a value that is not a list" :=
  ⟨rfl, rfl⟩

/-- C6: `process_user_response` has an effect exactly on a pending action
with a matching identifier: the pending target (a non-empty string name)
receives the response, the pending action is cleared and the block index
advances by exactly one; with a mismatched identifier or no pending action
the session is returned untouched, and the function is total (no raise). -/
theorem C6_process_user_response_effect :
    (∀ (s : SessionState) (pending : PyDict) (t aid : String) (resp : Value),
        s.pending_action = some pending →
        dictGet pending "id" = some (.str aid) →
        dictGet pending "target" = some (.str t) → t ≠ "" →
        process_user_response s aid resp =
          { s with vars := dictSet s.vars t resp,
                   pending_action := none,
                   current_block_index := s.current_block_index + 1 })
  ∧ (∀ (s : SessionState) (pending : PyDict) (aid : String) (resp : Value),
        s.pending_action = some pending →
        dictGet pending "id" ≠ some (.str aid) →
        process_user_response s aid resp = s)
  ∧ (∀ (s : SessionState) (aid : String) (resp : Value),
        s.pending_action = none →
        process_user_response s aid resp = s) := by
  refine ⟨?_, ?_, ?_⟩
  · intro s pending t aid resp hp hid ht hne
    simp [process_user_response, hp, hid, ht, hne, set_variable]
  · intro s pending aid resp hp hid
    rcases h : dictGet pending "id" with _ | v
    · simp [process_user_response, hp, h]
    · cases v with
      | str i =>
          have hne : ¬ (i = aid) := fun heq => hid (by rw [h, heq])
          simp [process_user_response, hp, h, hne]
      | null => simp [process_user_response, hp, h]
      | bool b => simp [process_user_response, hp, h]
      | int n => simp [process_user_response, hp, h]
      | list xs => simp [process_user_response, hp, h]
      | dict kvs => simp [process_user_response, hp, h]
  · intro s aid resp hp
    simp [process_user_response, hp]

/-- C6 witness: the matching, mismatching and absent cases at concrete
sessions. -/
theorem C6_witness :
    process_user_response
        (SessionState.mk (some "n1") 2 []
          (some [("type", .str "AWAIT_USER_INPUT"), ("target", .str "Name"),
                 ("id", .str "uid-1")]))
        "uid-1" (.str "Alice")
      = SessionState.mk (some "n1") 3 [("Name", .str "Alice")] none
  ∧ process_user_response
        (SessionState.mk (some "n1") 2 []
          (some [("type", .str "AWAIT_USER_INPUT"), ("target", .str "Name"),
                 ("id", .str "uid-1")]))
        "stale" (.str "Alice")
      = SessionState.mk (some "n1") 2 []
          (some [("type", .str "AWAIT_USER_INPUT"), ("target", .str "Name"),
                 ("id", .str "uid-1")])
  ∧ process_user_response (SessionState.mk (some "n1") 2 [] none) "uid-1" (.str "A")
      = SessionState.mk (some "n1") 2 [] none := by
  refine ⟨?_, ?_, ?_⟩
  · exact C6_process_user_response_effect.1 _ _ "Name" "uid-1" _ rfl rfl rfl (by decide)
  · exact C6_process_user_response_effect.2.1 _ _ "stale" _ rfl
      (by intro h; injection h with h1; injection h1 with h2; exact absurd h2 (by decide))
  · exact C6_process_user_response_effect.2.2 _ "uid-1" _ rfl

/-- C7: a session whose stored node identifier is set (non-empty, per the
truthiness test the source itself uses) but matches no node of the workflow
makes `get_next_step` return exactly the single END_WORKFLOW action, without
raising and with the session returned unchanged. -/
theorem C7_unknown_node_ends (o : Orchestrator) (supply : List String) (fuel : Nat)
    (s : SessionState) (cid : String)
    (h1 : s.current_node_id = some cid) (h2 : cid ≠ "")
    (h3 : findNode o.nodes cid = none) :
    get_next_step o supply (fuel + 1) s = .ok ([endWorkflowAction], s) := by
  simp [get_next_step, h1, h2, h3]

/-- C7 witness: a concrete session pointing at an id absent from the
fixture workflow. -/
theorem C7_witness :
    get_next_step awaitWorkflow [] 1 (SessionState.mk (some "zz") 0 [] none) =
      .ok ([endWorkflowAction], SessionState.mk (some "zz") 0 [] none) :=
  C7_unknown_node_ends awaitWorkflow [] 0 _ "zz" rfl (by decide) rfl

/-- C8: type-preserving interpolation.  The exact string made of one bound
placeholder returns the original typed value (`\x7bCount\x7d` with Count 42
gives the integer 42); a mixed string gets textual substitution (`Total: 42`);
in general a trimmed single bound placeholder returns the stored value, and
every other string goes through plain textual interpolation. -/
theorem C8_interpolation_type_preservation :
    interpolate_with_types (.str "\x7bCount\x7d") [("Count", .int 42)] = .int 42
  ∧ interpolate_variables "Total: \x7bCount\x7d" [("Count", .int 42)] = "Total: 42"
  ∧ (∀ (s name : String) (v : Value) (vars : PyDict),
        singleVarMatch (pyStrip s) = some name → dictGet vars name = some v →
        interpolate_with_types (.str s) vars = v)
  ∧ (∀ (s : String) (vars : PyDict),
        (∀ name, singleVarMatch (pyStrip s) = some name → dictGet vars name = none) →
        interpolate_with_types (.str s) vars = .str (interpolate_variables s vars)) := by
  refine ⟨rfl, rfl, ?_, ?_⟩
  · intro s name v vars h1 h2
    simp [interpolate_with_types, h1, h2]
  · intro s vars h
    cases hm : singleVarMatch (pyStrip s) with
    | none => simp [interpolate_with_types, hm]
    | some name => simp [interpolate_with_types, hm, h name hm]

/-- C8 witness: the general clauses instantiated — a whole list passed
through a single placeholder, and an unbound single placeholder falling back
to textual interpolation. -/
theorem C8_witness :
    interpolate_with_types (.str " \x7bObj\x7d ") [("Obj", .list [.int 1, .int 2])]
      = .list [.int 1, .int 2]
  ∧ interpolate_with_types (.str "\x7bMissing\x7d") []
      = .str (interpolate_variables "\x7bMissing\x7d" []) :=
  ⟨C8_interpolation_type_preservation.2.2.1 " \x7bObj\x7d " "Obj" _ _ rfl rfl,
   C8_interpolation_type_preservation.2.2.2 "\x7bMissing\x7d" [] (fun _ _ => rfl)⟩

/-- C9: the structured condition evaluator, on every rule whose `variable`
field is usable as a lookup key (the data-model reading of a rule: the
variable field names a variable), is total — it returns a boolean and never
raises; a numeric operator whose operands do not both coerce to float yields
false; an unknown operator yields false; and the concrete non-numeric
comparison from the spec yields false. -/
theorem C9_evaluator_totality :
    (∀ (rule vars : PyDict), variableFieldHashable rule = true →
        ∃ b, evaluate_structured_condition rule vars = .ok b)
  ∧ (∀ (rule vars : PyDict) (op : String), variableFieldHashable rule = true →
        dictGet rule "operator" = some (.str op) → op ∈ numericOps →
        (pyFloat (condVariableValue rule vars) = none ∨
         pyFloat ((dictGet rule "value").getD (.str "")) = none) →
        evaluate_structured_condition rule vars = .ok false)
  ∧ (∀ (rule vars : PyDict) (op : String), variableFieldHashable rule = true →
        dictGet rule "operator" = some (.str op) → op ∉ knownCondOps →
        evaluate_structured_condition rule vars = .ok false)
  ∧ evaluate_structured_condition
      [("variable", .str "x"), ("operator", .str "greater_than"), ("value", .str "1")]
      [("x", .str "abc")] = .ok false := by
  refine ⟨?_, ?_, ?_, rfl⟩
  · intro rule vars h
    unfold evaluate_structured_condition
    unfold variableFieldHashable at h
    cases hv : (dictGet rule "variable").getD (.str "") <;>
      simp [hv] at h ⊢
  · intro rule vars op h hop hmem hco
    have hnum : ∀ a b : Value,
        (pyFloat a = none ∨ pyFloat b = none) → numCompare op a b = false := by
      intro a b hab
      rcases hfa : pyFloat a with _ | x
      · simp [numCompare, hfa]
      · rcases hab with hab | hab
        · rw [hfa] at hab; cases hab
        · simp [numCompare, hfa, hab]
    unfold evaluate_structured_condition
    unfold variableFieldHashable at h
    rcases hv : (dictGet rule "variable").getD (.str "") with _ | b | n | nm | xs | kvs <;>
      simp [hv] at h ⊢ <;>
      · rw [hop]
        simp only [Option.getD_some]
        simp [numericOps] at hmem
        rcases hmem with rfl | rfl | rfl | rfl <;>
          simp [evalCondOp, numericOps, hnum _ _ hco]
  · intro rule vars op h hop hmem
    simp [knownCondOps, numericOps] at hmem
    obtain ⟨m1, m2, m3, m4, m5, m6, m7, m8, m9, m10, m11, m12, m13⟩ := hmem
    unfold evaluate_structured_condition
    unfold variableFieldHashable at h
    rcases hv : (dictGet rule "variable").getD (.str "") with _ | b | n | nm | xs | kvs <;>
      simp [hv] at h ⊢ <;>
      · rw [hop]
        simp only [Option.getD_some]
        simp [evalCondOp, numericOps, m1, m2, m3, m4, m5, m6, m7, m8, m9, m10, m11, m12, m13]

/-- C9 witness: an unknown operator, and a numeric comparison against a
null-valued variable, both evaluating to false without an error. -/
theorem C9_witness :
    (∃ b, evaluate_structured_condition [("operator", .str "frobnicate")] [] = .ok b)
  ∧ evaluate_structured_condition [("operator", .str "frobnicate")] [] = .ok false
  ∧ evaluate_structured_condition
      [("variable", .str "y"), ("operator", .str "less_than"), ("value", .str "2")]
      [("y", .null)] = .ok false :=
  ⟨C9_evaluator_totality.1 _ _ rfl,
   C9_evaluator_totality.2.2.1 _ _ "frobnicate" rfl rfl (by decide),
   C9_evaluator_totality.2.1 _ _ "less_than" rfl rfl (by decide) (Or.inl rfl)⟩

/-- C10: on a binding of a name to null, the two interpolation modes
disagree: the type-preserving single-placeholder mode returns the stored
null itself, while plain textual interpolation leaves the placeholder
literally in the text. -/
theorem C10_null_binding_modes (s name : String) (vars : PyDict)
    (h1 : singleVarMatch (pyStrip s) = some name)
    (h2 : dictGet vars name = some .null)
    (h3 : findVarRefs s = [name]) :
    interpolate_with_types (.str s) vars = .null
  ∧ interpolate_variables s vars = s := by
  constructor
  · simp [interpolate_with_types, h1, h2]
  · simp [interpolate_variables, h3, h2, isNull]

/-- C10 witness: the placeholder `\x7bN\x7d` with N bound to null. -/
theorem C10_witness :
    interpolate_with_types (.str "\x7bN\x7d") [("N", .null)] = .null
  ∧ interpolate_variables "\x7bN\x7d" [("N", .null)] = "\x7bN\x7d" :=
  C10_null_binding_modes "\x7bN\x7d" "N" [("N", .null)] rfl rfl rfl

/-- C3 counterexample: with `Count` bound to the integer 42, a SET_VARIABLE
action whose source is exactly the placeholder `\x7bCount\x7d` stores the
STRING `42` in the target, not the typed integer 42 — so the claimed
type-preserving interpolation of direct sources does not happen. -/
theorem C3_counterexample :
    (get_next_step (setSourceWorkflow "\x7bCount\x7d" []) [] 2
        (SessionState.mk (some "n1") 0 [("Count", .int 42)] none)).map
      (fun r => dictGet r.2.vars "T") = .ok (some (.str "42"))
  ∧ Value.str "42" ≠ Value.int 42 :=
  ⟨rfl, fun h => Value.noConfusion h⟩

/-- C3 amended: a direct SET_VARIABLE source is interpolated plainly (no
type preservation; the tool-call probe re-interpolates the string a second
time).  First part, for every source-carrying SET_VARIABLE action, session
and continuation: whenever the probed source is not a registered call
returning non-None — it does not parse as a call, or the parsed name is not
registered, or the registered tool returns None — the source string the
action carries is assigned to the target unchanged.  Second part: when the
probe is a registered call returning non-None, that result is assigned
instead.  Third part, through `get_next_step`: the source field is first
interpolated plainly against the session variables and in the fallback cases
that interpolated string is what ends up assigned. -/
theorem C3_amended_plain_source :
    (∀ (reg : ToolRegistry) (s : SessionState) (supply : List String)
        (rest : List PyDict) (a : PyDict) (t srcI : String),
        dictGet a "type" = some (.str "SET_VARIABLE") →
        dictGet a "target" = some (.str t) →
        dictHas a "source" = true →
        dictGet a "source" = some (.str srcI) →
        ((parse_function_call (interpolate_variables srcI s.vars)).1 = none
          ∨ (∃ nm args, parse_function_call (interpolate_variables srcI s.vars)
                = (some nm, args) ∧ regLookup reg nm = none)
          ∨ (∃ nm args f, parse_function_call (interpolate_variables srcI s.vars)
                = (some nm, args) ∧ regLookup reg nm = some f
                ∧ f args [] = .ok .null)) →
        process_actions_internally (some reg) (a :: rest) s supply =
          process_actions_internally (some reg) rest
            (set_variable s t (.str srcI)) supply)
  ∧ (∀ (reg : ToolRegistry) (s : SessionState) (supply : List String)
        (rest : List PyDict) (a : PyDict) (t srcI nm : String)
        (args : List Value) (f : ToolFn) (r : Value),
        dictGet a "type" = some (.str "SET_VARIABLE") →
        dictGet a "target" = some (.str t) →
        dictHas a "source" = true →
        dictGet a "source" = some (.str srcI) →
        parse_function_call (interpolate_variables srcI s.vars) = (some nm, args) →
        regLookup reg nm = some f → f args [] = .ok r → isNull r = false →
        process_actions_internally (some reg) (a :: rest) s supply =
          process_actions_internally (some reg) rest (set_variable s t r) supply)
  ∧ (∀ (vars : PyDict) (src : String) (reg : ToolRegistry) (fuel : Nat),
        ((parse_function_call
              (interpolate_variables (interpolate_variables src vars) vars)).1 = none
          ∨ (∃ nm args, parse_function_call
                  (interpolate_variables (interpolate_variables src vars) vars)
                = (some nm, args) ∧ regLookup reg nm = none)
          ∨ (∃ nm args f, parse_function_call
                  (interpolate_variables (interpolate_variables src vars) vars)
                = (some nm, args) ∧ regLookup reg nm = some f
                ∧ f args [] = .ok .null)) →
        get_next_step (setSourceWorkflow src reg) [] (fuel + 1)
            (SessionState.mk (some "n1") 0 vars none) =
          .ok ([], SessionState.mk (some "n1") 1
            (dictSet vars "T" (.str (interpolate_variables src vars))) none)) := by
  have hfallback : ∀ (reg : ToolRegistry) (vs : PyDict) (srcI : String),
      ((parse_function_call (interpolate_variables srcI vs)).1 = none
        ∨ (∃ nm args, parse_function_call (interpolate_variables srcI vs)
              = (some nm, args) ∧ regLookup reg nm = none)
        ∨ (∃ nm args f, parse_function_call (interpolate_variables srcI vs)
              = (some nm, args) ∧ regLookup reg nm = some f
              ∧ f args [] = .ok .null)) →
      execute_tool_call (.str srcI) vs reg = .ok .null := by
    intro reg vs srcI hfb
    unfold execute_tool_call interpValue
    rcases hfb with h1 | ⟨nm, args, hp, hreg⟩ | ⟨nm, args, f, hp, hreg, hf⟩
    · rcases hp : parse_function_call (interpolate_variables srcI vs) with ⟨onm, oargs⟩
      rw [hp] at h1
      simp only at h1
      subst h1
      simp [hp]
    · simp [hp, hreg]
    · simp [hp, hreg, hf]
  have hA : ∀ (reg : ToolRegistry) (s : SessionState) (supply : List String)
      (rest : List PyDict) (a : PyDict) (t srcI : String),
      dictGet a "type" = some (.str "SET_VARIABLE") →
      dictGet a "target" = some (.str t) →
      dictHas a "source" = true →
      dictGet a "source" = some (.str srcI) →
      ((parse_function_call (interpolate_variables srcI s.vars)).1 = none
        ∨ (∃ nm args, parse_function_call (interpolate_variables srcI s.vars)
              = (some nm, args) ∧ regLookup reg nm = none)
        ∨ (∃ nm args f, parse_function_call (interpolate_variables srcI s.vars)
              = (some nm, args) ∧ regLookup reg nm = some f
              ∧ f args [] = .ok .null)) →
      process_actions_internally (some reg) (a :: rest) s supply =
        process_actions_internally (some reg) rest
          (set_variable s t (.str srcI)) supply := by
    intro reg s supply rest a t srcI ht htgt hhas hsrc hfb
    have hs : set_variable_from_source (some reg) s t (.str srcI)
        = .ok (set_variable s t (.str srcI)) := by
      simp only [set_variable_from_source]
      rw [hfallback reg s.vars srcI hfb]
      rfl
    simp [process_actions_internally, typeIs, ht, isStrVal, getRequired, htgt,
      asStrE, hhas, hsrc, okBind, hs]
  refine ⟨hA, ?_, ?_⟩
  · intro reg s supply rest a t srcI nm args f r ht htgt hhas hsrc hp hreg hf hnn
    have hexec : execute_tool_call (.str srcI) s.vars reg = .ok r := by
      unfold execute_tool_call interpValue
      simp [hp, hreg, hf]
    have hs : set_variable_from_source (some reg) s t (.str srcI)
        = .ok (set_variable s t r) := by
      simp only [set_variable_from_source]
      rw [hexec]
      simp [okBind, hnn]
    simp [process_actions_internally, typeIs, ht, isStrVal, getRequired, htgt,
      asStrE, hhas, hsrc, okBind, hs]
  · intro vars src reg fuel hfb
    rw [get_next_step_regular_block (setSourceWorkflow src reg) [] fuel
          (SessionState.mk (some "n1") 0 vars none) "n1"
          [("id", .str "n1"),
           ("blocks", .list [ .dict [("type", .str "SET_VARIABLE"), ("target", .str "T"),
                                     ("source", .str src)] ])]
          [ .dict [("type", .str "SET_VARIABLE"), ("target", .str "T"),
                   ("source", .str src)] ]
          [("type", .str "SET_VARIABLE"), ("target", .str "T"), ("source", .str src)]
          "SET_VARIABLE" rfl (by decide) rfl (List.cons_ne_nil _ _) rfl (by simp) rfl rfl
          (by decide)]
    rw [finishStep_single_action _ _
          [("type", .str "SET_VARIABLE"), ("target", .str "T"), ("source", .str src)] _ rfl]
    have hia : interpolateAction
        [("type", .str "SET_VARIABLE"), ("target", .str "T"), ("source", .str src)]
        vars =
        [("type", .str "SET_VARIABLE"), ("target", .str "T"),
         ("source", .str (interpolate_variables src vars))] := by
      simp [interpolateAction, typeIs, dictGet, isStrVal, interpValue,
        interp_no_refs "SET_VARIABLE" vars rfl, interp_no_refs "T" vars rfl]
    have hexec : execute_tool_call (.str (interpolate_variables src vars)) vars reg
        = .ok .null := hfallback reg vars _ hfb
    simp [hia, process_actions_internally, typeIs, dictGet, isStrVal, getRequired,
      asStrE, dictHas, set_variable_from_source, hexec, set_variable,
      setSourceWorkflow, okBind, isNull, dictSet]

/-- C3 witness: the three cases at concrete inputs — a parsed but
unregistered call falls back to the string, a registered call returning 7
assigns the 7, and through `get_next_step` a mixed source string with a
bound placeholder is assigned as its interpolated string. -/
theorem C3_witness :
    process_actions_internally (some [])
        [[("type", Value.str "SET_VARIABLE"), ("target", Value.str "Y"),
          ("source", Value.str "foo()")]]
        (SessionState.mk none 0 [] none) [] =
      process_actions_internally (some []) []
        (set_variable (SessionState.mk none 0 [] none) "Y" (.str "foo()")) []
  ∧ process_actions_internally (some [("seven", fun _ _ => Except.ok (Value.int 7))])
        [[("type", Value.str "SET_VARIABLE"), ("target", Value.str "Y"),
          ("source", Value.str "seven()")]]
        (SessionState.mk none 0 [] none) [] =
      process_actions_internally (some [("seven", fun _ _ => Except.ok (Value.int 7))])
        [] (set_variable (SessionState.mk none 0 [] none) "Y" (.int 7)) []
  ∧ get_next_step (setSourceWorkflow "Hello \x7bName\x7d" []) [] 1
        (SessionState.mk (some "n1") 0 [("Name", .str "World")] none) =
      .ok ([], SessionState.mk (some "n1") 1
        (dictSet [("Name", .str "World")] "T"
          (.str (interpolate_variables "Hello \x7bName\x7d" [("Name", .str "World")])))
        none) := by
  refine ⟨?_, ?_, ?_⟩
  · exact C3_amended_plain_source.1 [] _ [] [] _ "Y" "foo()" rfl rfl rfl rfl
      (Or.inr (Or.inl ⟨"foo", [], rfl, rfl⟩))
  · exact C3_amended_plain_source.2.1 _ _ [] [] _ "Y" "seven()" "seven" [] _ (.int 7)
      rfl rfl rfl rfl rfl rfl rfl rfl
  · exact C3_amended_plain_source.2.2 [("Name", .str "World")] "Hello \x7bName\x7d" [] 0
      (Or.inl rfl)

/-- C4 counterexample: an ANALYZE_RESPONSE action whose criteria tool raises
makes the whole `get_next_step` call raise (the model returns the error) —
the exception is not caught and no `false` is assigned, contrary to the
claim. -/
theorem C4_counterexample :
    get_next_step (analyzeWorkflow "RuntimeError: boom") [] 2
        (SessionState.mk (some "n1") 0 [] none) = .error "RuntimeError: boom" := rfl

/-- C4 amended: for every SET_VARIABLE action in the action/actionArgs form
(any target, arguments, session and continuation), a raising tool is caught
at the call site and null is assigned to the target, processing continuing
normally; but for every ANALYZE_RESPONSE action whose resolvable criteria
tool raises, the error propagates out of the internal action processing
uncaught.  The last two parts show the same behaviors surfacing at the
`get_next_step` boundary: the SET_VARIABLE call returns normally, the
ANALYZE_RESPONSE call returns the tool's error. -/
theorem C4_set_catches_analyze_propagates :
    (∀ (reg : ToolRegistry) (s : SessionState) (supply : List String)
        (rest : List PyDict) (a : PyDict) (t nm : String) (f : ToolFn)
        (kwargs : PyDict) (msg : String),
        dictGet a "type" = some (.str "SET_VARIABLE") →
        dictGet a "target" = some (.str t) →
        dictHas a "source" = false →
        dictHas a "action" = true →
        dictGet a "action" = some (.str nm) →
        regLookup reg nm = some f →
        interpolate_args_deep ((dictGet a "actionArgs").getD (.dict [])) s.vars
          = .dict kwargs →
        f [] kwargs = .error msg →
        process_actions_internally (some reg) (a :: rest) s supply =
          process_actions_internally (some reg) rest
            (set_variable s t .null) supply)
  ∧ (∀ (reg : ToolRegistry) (s : SessionState) (supply : List String)
        (rest : List PyDict) (a : PyDict) (outv c : String) (inp : Value)
        (f : ToolFn) (msg : String),
        dictGet a "type" = some (.str "ANALYZE_RESPONSE") →
        dictGet a "input" = some inp →
        dictGet a "output_bool" = some (.str outv) →
        dictGet a "criteria" = some (.str c) → c ≠ "" →
        regLookup reg c = some f →
        f [inp] [] = .error msg →
        process_actions_internally (some reg) (a :: rest) s supply = .error msg)
  ∧ (∀ (msg : String) (fuel : Nat),
        get_next_step (toolSetWorkflow msg) [] (fuel + 1)
            (SessionState.mk (some "n1") 0 [] none) =
          .ok ([], SessionState.mk (some "n1") 1 [("T", .null)] none))
  ∧ (∀ (msg : String) (fuel : Nat),
        get_next_step (analyzeWorkflow msg) [] (fuel + 1)
            (SessionState.mk (some "n1") 0 [] none) = .error msg) := by
  refine ⟨?_, ?_, ?_, ?_⟩
  · intro reg s supply rest a t nm f kwargs msg ht htgt hnosrc hhasact hact hreg hargs hf
    simp [process_actions_internally, typeIs, ht, isStrVal, getRequired, htgt,
      asStrE, hnosrc, hhasact, hact, hreg, hargs, hf, okBind]
  · intro reg s supply rest a outv c inp f msg ht hin hout hcrit hcne hreg hf
    have hc : pyTruthy (.str c) = true := by simp [pyTruthy, hcne]
    simp [process_actions_internally, typeIs, ht, isStrVal, getRequired, hin, hout,
      asStrE, analyze_and_set_variable, hcrit, hc, hreg, hf, okBind, errBind]
  · intro msg fuel
    rw [get_next_step_regular_block (toolSetWorkflow msg) [] fuel
          (SessionState.mk (some "n1") 0 [] none) "n1"
          [("id", .str "n1"),
           ("blocks", .list [ .dict [("type", .str "SET_VARIABLE"), ("target", .str "T"),
                                     ("action", .str "boom"), ("actionArgs", .dict [])] ])]
          [ .dict [("type", .str "SET_VARIABLE"), ("target", .str "T"),
                   ("action", .str "boom"), ("actionArgs", .dict [])] ]
          [("type", .str "SET_VARIABLE"), ("target", .str "T"),
           ("action", .str "boom"), ("actionArgs", .dict [])]
          "SET_VARIABLE" rfl (by decide) rfl (List.cons_ne_nil _ _) rfl (by simp) rfl rfl
          (by decide)]
    rw [finishStep_single_action _ _
          [("type", .str "SET_VARIABLE"), ("target", .str "T"),
           ("action", .str "boom"), ("actionArgs", .dict [])] _ rfl]
    simp [interpolateAction, typeIs, dictGet, isStrVal, interpValue,
      process_actions_internally, getRequired, asStrE, dictHas, toolSetWorkflow,
      raisingReg, regLookup, interpolate_args_deep, interpArgsEntries,
      set_variable, okBind, dictSet, List.find?,
      interp_no_refs "SET_VARIABLE" [] rfl, interp_no_refs "T" [] rfl]
  · intro msg fuel
    rw [get_next_step_regular_block (analyzeWorkflow msg) [] fuel
          (SessionState.mk (some "n1") 0 [] none) "n1"
          [("id", .str "n1"),
           ("blocks", .list [ .dict [("type", .str "ANALYZE_RESPONSE"), ("input", .str "hi"),
                                     ("output_bool", .str "B"), ("criteria", .str "boom")] ])]
          [ .dict [("type", .str "ANALYZE_RESPONSE"), ("input", .str "hi"),
                   ("output_bool", .str "B"), ("criteria", .str "boom")] ]
          [("type", .str "ANALYZE_RESPONSE"), ("input", .str "hi"),
           ("output_bool", .str "B"), ("criteria", .str "boom")]
          "ANALYZE_RESPONSE" rfl (by decide) rfl (List.cons_ne_nil _ _) rfl (by simp) rfl rfl
          (by decide)]
    rw [finishStep_single_action _ _
          [("type", .str "ANALYZE_RESPONSE"), ("input", .str "hi"),
           ("output_bool", .str "B"), ("criteria", .str "boom")] _ rfl]
    simp [interpolateAction, typeIs, dictGet, isStrVal, interpValue,
      process_actions_internally, getRequired, asStrE, analyzeWorkflow,
      analyze_and_set_variable, pyTruthy, raisingReg, regLookup,
      okBind, errBind, List.find?,
      interp_no_refs "ANALYZE_RESPONSE" [] rfl, interp_no_refs "hi" [] rfl,
      interp_no_refs "B" [] rfl, interp_no_refs "boom" [] rfl]

/-- C4 witness: the general parts at concrete inputs — the raising tool
behind a SET_VARIABLE action is swallowed into a null assignment, the same
tool behind an ANALYZE_RESPONSE action aborts the processing with its
error. -/
theorem C4_witness :
    process_actions_internally (some (raisingReg "RuntimeError: boom"))
        [[("type", Value.str "SET_VARIABLE"), ("target", Value.str "T"),
          ("action", Value.str "boom"), ("actionArgs", Value.dict [])]]
        (SessionState.mk none 0 [] none) [] =
      process_actions_internally (some (raisingReg "RuntimeError: boom")) []
        (set_variable (SessionState.mk none 0 [] none) "T" .null) []
  ∧ process_actions_internally (some (raisingReg "RuntimeError: boom"))
        [[("type", Value.str "ANALYZE_RESPONSE"), ("input", Value.str "hi"),
          ("output_bool", Value.str "B"), ("criteria", Value.str "boom")]]
        (SessionState.mk none 0 [] none) [] = .error "RuntimeError: boom" := by
  constructor
  · exact C4_set_catches_analyze_propagates.1 _ _ [] [] _ "T" "boom"
      (fun _ _ => Except.error "RuntimeError: boom") [] "RuntimeError: boom"
      rfl rfl rfl rfl rfl rfl rfl rfl
  · exact C4_set_catches_analyze_propagates.2.1 _ _ [] [] _ "B" "boom" (.str "hi")
      (fun _ _ => Except.error "RuntimeError: boom") "RuntimeError: boom"
      rfl rfl rfl rfl (by decide) rfl rfl

/-- C5: CONDITION semantics.  First part: the first rule whose condition
holds contributes exactly its `then` list, whatever comes after it.  Second
part: when no rule matches, the `else` list of the last rule is used.  Third
part: a CONDITION that resolves to no actions advances the block index and
the step continues at the next block (one recursion step of the engine). -/
theorem C5_condition_semantics :
    (∀ (pre post : List Value) (r : PyDict) (vars : PyDict) (ts : List Value),
        (∀ x ∈ pre, ∃ d, x = Value.dict d ∧
          evaluate_structured_condition d vars = .ok false) →
        evaluate_structured_condition r vars = .ok true →
        dictGet r "then" = some (.list ts) →
        conditionActions (pre ++ Value.dict r :: post) vars = .ok ts)
  ∧ (∀ (rules : List Value) (vars : PyDict) (fr : PyDict) (es : List Value),
        (∀ x ∈ rules, ∃ d, x = Value.dict d ∧
          evaluate_structured_condition d vars = .ok false) →
        rules.getLast? = some (.dict fr) →
        dictGet fr "else" = some (.list es) →
        conditionActions rules vars = .ok es)
  ∧ (∀ (o : Orchestrator) (supply : List String) (fuel : Nat) (s : SessionState)
        (cid : String) (nd : PyDict) (blocks : List Value) (blockD : PyDict)
        (rules : List Value),
        s.current_node_id = some cid → cid ≠ "" →
        findNode o.nodes cid = some (.dict nd) → nd ≠ [] →
        dictGet nd "blocks" = some (.list blocks) →
        ∀ (hidx : s.current_block_index < blocks.length),
        blocks.get ⟨s.current_block_index, hidx⟩ = .dict blockD →
        dictGet blockD "type" = some (.str "CONDITION") →
        dictGet blockD "rules" = some (.list rules) →
        conditionActions rules s.vars = .ok [] →
        get_next_step o supply (fuel + 1) s =
          get_next_step o supply fuel
            { s with current_block_index := s.current_block_index + 1 }) := by
  refine ⟨?_, ?_, ?_⟩
  · intro pre post r vars ts hpre hr hts
    unfold conditionActions
    rw [firstTrueThen_skip pre (Value.dict r :: post) vars hpre]
    simp [firstTrueThen, asDictE, okBind, hr, hts, asListE]
  · intro rules vars fr es hall hlast hels
    unfold conditionActions
    have hnone : firstTrueThen rules vars = .ok none := by
      simpa using firstTrueThen_skip rules [] vars hall
    rw [hnone]
    simp [okBind, hlast, asDictE, hels, asListE]
  · intro o supply fuel s cid nd blocks blockD rules h1 h2 h3 h4 h5 hidx h6 h7 h8 hempty
    have hne : nd.isEmpty = false := by simpa using h4
    have hge : ¬ s.current_block_index ≥ blocks.length := by omega
    simp only [List.get_eq_getElem] at h6
    simp [get_next_step, h1, h2, h3, hne, hge, h5, h6, h7, h8, hempty,
      getRequired, asListE, asDictE, pyTruthy, isStrVal, okBind]

/-- C5 witness: the tie-break and fallback examples of the spec, and a
CONDITION resolving to no actions advancing to the PRESENT_CONTENT block
after it. -/
theorem C5_witness :
    conditionActions [Value.dict condRule1, Value.dict condRule2]
        [("x", .str "2")] = .ok [presB]
  ∧ conditionActions [Value.dict condRule1, Value.dict condRule2]
        [("x", .str "9")] = .ok [presC]
  ∧ get_next_step skipWorkflow [] 2
        (SessionState.mk (some "n1") 0 [("x", .str "9")] none) =
      get_next_step skipWorkflow [] 1
        (SessionState.mk (some "n1") 1 [("x", .str "9")] none) := by
  refine ⟨?_, ?_, ?_⟩
  · exact C5_condition_semantics.1 [Value.dict condRule1] [] condRule2 _ [presB]
      (by intro x hx; simp at hx; subst hx; exact ⟨condRule1, rfl, rfl⟩) rfl rfl
  · exact C5_condition_semantics.2.1 [Value.dict condRule1, Value.dict condRule2] _
      condRule2 [presC]
      (by intro x hx; simp at hx
          rcases hx with hx | hx <;> subst hx
          · exact ⟨condRule1, rfl, rfl⟩
          · exact ⟨condRule2, rfl, rfl⟩) rfl rfl
  · exact C5_condition_semantics.2.2 skipWorkflow [] 1
      (SessionState.mk (some "n1") 0 [("x", .str "9")] none) "n1"
      [("id", .str "n1"),
       ("blocks", .list
         [ .dict [("type", .str "CONDITION"),
                  ("rules", .list
                    [ .dict [("variable", .str "x"), ("operator", .str "equals"),
                             ("value", .str "9"), ("then", .list [])] ])]
         , .dict [("type", .str "PRESENT_CONTENT"), ("payload", .str "After")] ])]
      [ .dict [("type", .str "CONDITION"),
               ("rules", .list
                 [ .dict [("variable", .str "x"), ("operator", .str "equals"),
                          ("value", .str "9"), ("then", .list [])] ])]
      , .dict [("type", .str "PRESENT_CONTENT"), ("payload", .str "After")] ]
      [("type", .str "CONDITION"),
       ("rules", .list
         [ .dict [("variable", .str "x"), ("operator", .str "equals"),
                  ("value", .str "9"), ("then", .list [])] ])]
      [ .dict [("variable", .str "x"), ("operator", .str "equals"),
               ("value", .str "9"), ("then", .list [])] ]
      rfl (by decide) rfl (List.cons_ne_nil _ _) rfl (by simp) rfl rfl rfl rfl

end Journey
